import Mathlib

/-!
Verification of the answer-checking and attempt-policy engine of the
Trafer education app (`app.py`).

Python strings are modelled as lists of code points (`List Nat`); the
normalizer, scorer, attempt policy, feedback selector and the submission
controller (`page_pupil_paper`'s submit path) are shallowly embedded as
executable Lean functions, and the spec's claims are settled against them.
-/

namespace Trafer

/-- A Python string, as its sequence of code points. -/
abbrev PyStr := List Nat

/-- The whitespace code points stripped by `str.strip()` (ASCII fragment). -/
def isPySpace (c : Nat) : Bool :=
  decide (c = 32 ∨ c = 9 ∨ c = 10 ∨ c = 11 ∨ c = 12 ∨ c = 13)

/-- Model of `str.lower()` on one code point (ASCII fragment: A-Z ↦ a-z). -/
def pyToLower (c : Nat) : Nat := if 65 ≤ c ∧ c ≤ 90 then c + 32 else c

/-- Model of `str.upper()` on one code point (ASCII fragment: a-z ↦ A-Z). -/
def pyToUpper (c : Nat) : Nat := if 97 ≤ c ∧ c ≤ 122 then c - 32 else c

/-- Model of `s.lower()`. -/
def pyLower (s : PyStr) : PyStr := s.map pyToLower

/-- Model of `s.upper()`. -/
def pyUpper (s : PyStr) : PyStr := s.map pyToUpper

/-- Leading-whitespace removal, the left half of `s.strip()`. -/
def stripLeft (s : PyStr) : PyStr := s.dropWhile isPySpace

/-- Trailing-whitespace removal, the right half of `s.strip()`. -/
def stripRight (s : PyStr) : PyStr := (s.reverse.dropWhile isPySpace).reverse

/-- Model of `s.strip()`. -/
def pyStrip (s : PyStr) : PyStr := stripRight (stripLeft s)

/-- Embedding of `normalize_scalar(x) = (x or "").strip().lower()` (app.py:289-290);
the argument is optional to model `None`/absent input. -/
def normalize_scalar (x : Option PyStr) : PyStr := pyLower (pyStrip (x.getD []))

/-- A stored or submitted answer value: a scalar string or a grid of
strings (`answer_json` decodes to one of these; app.py:47, 72). -/
inductive PyVal where
  | str (s : PyStr)
  | grid (g : List (List PyStr))
deriving DecidableEq

/-- The repr of a quote-free string as it appears inside `str()` of a list. -/
def quoteStr (s : PyStr) : PyStr := 39 :: s ++ [39]

/-- Model of `str()` of a list row, e.g. `['a', 'b']` (repr of quote-free cells). -/
def reprRow (r : List PyStr) : PyStr := 91 :: List.intercalate [44, 32] (r.map quoteStr) ++ [93]

/-- Model of `str()` of a grid, e.g. `[['a', 'b']]` (repr of quote-free cells). -/
def reprGrid (g : List (List PyStr)) : PyStr := 91 :: List.intercalate [44, 32] (g.map reprRow) ++ [93]

/-- Model of `str(v)` as applied by `auto_score` to an answer value. -/
def pyStrVal : PyVal → PyStr
  | .str s => s
  | .grid g => reprGrid g

/-- A value in the position `check_table` iterates over: a grid is itself;
a Python string duck-types as one row per character, each row holding the
single one-character cell, which is how `len` and indexing treat it. -/
def gridVal : PyVal → List (List PyStr)
  | .grid g => g
  | .str s => s.map fun c => [[c]]

/-- The `answer_type` column of a problem row (app.py:46). -/
inductive AnswerType where
  | single
  | table
deriving DecidableEq

/-- A stored problem row (app.py:43-51): `answer` is the decoded
`answer_json`. Content is irrelevant to scoring and omitted. -/
structure Problem where
  answer_type : AnswerType
  answer : PyVal

/-- The grading mode of a paper (app.py:59). -/
inductive Mode where
  | training
  | test1
  | test2
deriving DecidableEq

/-- A stored paper row (app.py:55-64). -/
structure Paper where
  title : PyStr
  problem_ids : List PyStr
  mode : Mode
  show_problem_ids : Bool

/-- A stored submission row (app.py:68-77). -/
structure Submission where
  paper_id : Nat
  pupil_id : Nat
  answers : PyStr → Option PyVal
  score : ℚ
  attempt_no : Nat

/-- The problems table, keyed by problem id. -/
abbrev ProblemStore := List (PyStr × Problem)

/-- The papers table, keyed by numeric paper id. -/
abbrev PaperStore := List (Nat × Paper)

/-- Embedding of `get_problem(pid)` (app.py:158-169): the row with that id, if any. -/
def get_problem (store : ProblemStore) (pid : PyStr) : Option Problem :=
  (store.find? fun e => decide (e.1 = pid)).map (·.2)

/-- Embedding of `get_paper(paper_id)` (app.py:187-198). -/
def get_paper (papers : PaperStore) (paper_id : Nat) : Option Paper :=
  (papers.find? fun e => decide (e.1 = paper_id)).map (·.2)

/-- Embedding of `check_single` (app.py:293-294). -/
def check_single (user_ans correct_ans : PyStr) : Bool :=
  decide (normalize_scalar (some user_ans) = normalize_scalar (some correct_ans))

/-- One row comparison inside `check_table`: the column-count check, then
every cell pairwise through the normalizer (app.py:301-305). -/
def checkRow (u k : List PyStr) : Bool :=
  if u.length = k.length then
    (u.zip k).all fun p => decide (normalize_scalar (some p.1) = normalize_scalar (some p.2))
  else false

/-- The row loop of `check_table` (app.py:300-306), after the row-count
check has passed (so both lists run out together). -/
def checkRows : List (List PyStr) → List (List PyStr) → Bool
  | u :: us, k :: ks => checkRow u k && checkRows us ks
  | _, _ => true

/-- Embedding of `check_table` (app.py:297-306): row count first, then each row. -/
def check_table (user_tab correct_tab : List (List PyStr)) : Bool :=
  if user_tab.length = correct_tab.length then checkRows user_tab correct_tab else false

/-- The per-problem check `auto_score` performs for one id (app.py:313-320):
a missing problem is marked false; a single answer is compared through
`str` and `check_single` with `""` as the absent default; a table answer
through `check_table` with `[]` as the absent default. -/
def checkOne (store : ProblemStore) (user_answers : PyStr → Option PyVal) (pid : PyStr) : Bool :=
  match get_problem store pid with
  | none => false
  | some prob =>
      match prob.answer_type with
      | .single => check_single (pyStrVal ((user_answers pid).getD (.str []))) (pyStrVal prob.answer)
      | .table => check_table (gridVal ((user_answers pid).getD (.grid []))) (gridVal prob.answer)

/-- One iteration of `auto_score`'s loop (app.py:312-323): bump the correct
count when the check passes and record the verdict under the id. -/
def scoreStep (store : ProblemStore) (user_answers : PyStr → Option PyVal)
    (acc : Nat × (PyStr → Option Bool)) (pid : PyStr) : Nat × (PyStr → Option Bool) :=
  let ok := checkOne store user_answers pid
  (if ok then acc.1 + 1 else acc.1, fun q => if q = pid then some ok else acc.2 q)

/-- Embedding of `auto_score` (app.py:309-325): the percentage
`100 * correct_count / max(1, len(problem_ids))` and the results dict. -/
def auto_score (store : ProblemStore) (problem_ids : List PyStr)
    (user_answers : PyStr → Option PyVal) : ℚ × (PyStr → Option Bool) :=
  let r := problem_ids.foldl (scoreStep store user_answers) (0, fun _ => none)
  (100 * (r.1 : ℚ) / (max 1 problem_ids.length : ℚ), r.2)

/-- Embedding of `attempts_remaining(mode, attempts_so_far)` (app.py:276-281):
`none` stands for Python's `None`, displayed as infinity. -/
def attempts_remaining (mode : Mode) (attempts_so_far : Nat) : Option Nat :=
  match mode with
  | .training => none
  | .test1 => some (max 0 (1 - attempts_so_far))
  | .test2 => some (max 0 (2 - attempts_so_far))

/-- The submit gate of `page_pupil_paper` (app.py:555-559): test1 blocks
at one prior attempt, test2 at two, training never. -/
def may_attempt (mode : Mode) (attempts_so_far : Nat) : Bool :=
  if mode = .test1 ∧ attempts_so_far ≥ 1 then false
  else if mode = .test2 ∧ attempts_so_far ≥ 2 then false
  else true

/-- Embedding of `get_attempt_count(paper_id, pupil_id)` (app.py:226-232): the number
of stored submissions for the pair. -/
def get_attempt_count (subs : List Submission) (paper_id pupil_id : Nat) : Nat :=
  (subs.filter fun s => decide (s.paper_id = paper_id ∧ s.pupil_id = pupil_id)).length

/-- Embedding of `record_submission` (app.py:217-223): append one row. -/
def record_submission (subs : List Submission) (paper_id pupil_id : Nat)
    (answers : PyStr → Option PyVal) (score : ℚ) (attempt_no : Nat) : List Submission :=
  subs ++ [⟨paper_id, pupil_id, answers, score, attempt_no⟩]

/-- The disclosure payload built by `page_pupil_paper` (app.py:569-601):
per-problem correctness marks only, marks together with the correct
answer values, or the bare list of ids answered incorrectly. -/
inductive Feedback where
  | marksOnly (marks : List (PyStr × Bool))
  | fullReveal (items : List (PyStr × Bool × PyVal))
  | wrongList (wrong : List PyStr)

/-- Whether a payload carries correct-answer values. -/
def revealsAnswers : Feedback → Bool
  | .fullReveal _ => true
  | _ => false

/-- Whether a payload carries per-problem correctness flags. -/
def revealsCorrectness : Feedback → Bool
  | .marksOnly _ => true
  | .fullReveal _ => true
  | .wrongList _ => false

/-- The feedback branch of `page_pupil_paper` (app.py:569-601) as a
function of mode and attempt number, over the resolved problems:
training shows marks, test1 shows marks and answers, test2 shows the
wrong-id list on attempt 1 and marks and answers afterwards. -/
def feedback_view (mode : Mode) (attempt_no : Nat) (probs : List (PyStr × Problem))
    (per : PyStr → Option Bool) : Feedback :=
  match mode with
  | .training => .marksOnly (probs.map fun q => (q.1, (per q.1).getD false))
  | .test1 => .fullReveal (probs.map fun q => (q.1, (per q.1).getD false, q.2.answer))
  | .test2 =>
      if attempt_no = 1 then
        .wrongList ((probs.filter fun q => !(per q.1).getD false).map (·.1))
      else
        .fullReveal (probs.map fun q => (q.1, (per q.1).getD false, q.2.answer))

/-- How a submit attempt can fail (app.py:526-527, 555-559). -/
inductive SubmitErr where
  | PaperNotFound
  | AttemptLimitExceeded
deriving DecidableEq

/-- What a successful submit returns for presentation (app.py:562-601). -/
structure SubmitOk where
  missing : List PyStr
  pct : ℚ
  per_problem : PyStr → Option Bool
  feedback : Feedback

/-- The submit path of `page_pupil_paper` (app.py:511-601): load the
paper, list missing referenced problems, read the attempt count, enforce
the mode gate, score the resolved ids, append the submission with
`attempt_no = attempts_so_far + 1`, and build the feedback. Error paths
return the submissions list unchanged. -/
def submit (papers : PaperStore) (store : ProblemStore) (paper_id pupil_id : Nat)
    (answers : PyStr → Option PyVal) (subs : List Submission) :
    Except SubmitErr SubmitOk × List Submission :=
  match get_paper papers paper_id with
  | none => (.error .PaperNotFound, subs)
  | some paper =>
      let missing := paper.problem_ids.filter fun pid => (get_problem store pid).isNone
      let attempts_so_far := get_attempt_count subs paper_id pupil_id
      if paper.mode = .test1 ∧ attempts_so_far ≥ 1 then (.error .AttemptLimitExceeded, subs)
      else if paper.mode = .test2 ∧ attempts_so_far ≥ 2 then (.error .AttemptLimitExceeded, subs)
      else
        let resolved := paper.problem_ids.filter fun pid => (get_problem store pid).isSome
        let scored := auto_score store resolved answers
        let attempt_no := attempts_so_far + 1
        let subs' := record_submission subs paper_id pupil_id answers scored.1 attempt_no
        let probs := paper.problem_ids.filterMap fun pid =>
          (get_problem store pid).map fun pr => (pid, pr)
        (.ok ⟨missing, scored.1, scored.2, feedback_view paper.mode attempt_no probs scored.2⟩,
          subs')

/-- The percentage of a submit outcome, when it succeeded. -/
def submitPct : Except SubmitErr SubmitOk → Option ℚ
  | .ok r => some r.pct
  | .error _ => none

/-- The attempt-number invariant of the submissions table: for every
(paper, pupil) pair the attempt numbers of its rows, in insertion order,
are exactly 1, 2, …, count. -/
def WellNumbered (subs : List Submission) : Prop :=
  ∀ pa pu,
    ((subs.filter fun s => decide (s.paper_id = pa ∧ s.pupil_id = pu)).map (·.attempt_no))
      = List.range' 1 (get_attempt_count subs pa pu)

/-- Example problem id "A". -/
def pidA : PyStr := [65]

/-- Example problem id "B" (left absent from the example store). -/
def pidB : PyStr := [66]

/-- Example problem: single answer "x". -/
def probX : Problem := ⟨.single, .str [120]⟩

/-- Example problem: single answer whose key is whitespace-only. -/
def probBlank : Problem := ⟨.single, .str [32, 32]⟩

/-- Example store holding only problem "A". -/
def exStore : ProblemStore := [(pidA, probX)]

/-- Example paper in test1 mode referencing "A" and the missing "B". -/
def exPaper : Paper := ⟨[], [pidA, pidB], .test1, true⟩

/-- Example papers table holding `exPaper` as paper 1. -/
def exPapers : PaperStore := [(1, exPaper)]

/-- Example submitted answers: "x" for problem "A", nothing else. -/
def exAns : PyStr → Option PyVal := fun p => if p = pidA then some (.str [120]) else none

/-- Example training paper referencing "A", as paper 1 of its own table. -/
def exPaperTraining : Paper := ⟨[], [pidA], .training, true⟩

/-- Example papers table holding `exPaperTraining` as paper 1. -/
def exPapersTraining : PaperStore := [(1, exPaperTraining)]

/-- An example prior submission of paper 1 by pupil 2. -/
def exPrior : Submission := ⟨1, 2, fun _ => none, 100, 1⟩

/-- Example store for the blank-key claim: problem "A" keyed "  ". -/
def exStoreBlank : ProblemStore := [(pidA, probBlank)]

/-!  Helper lemmas. -/

theorem pyToLower_pyToUpper (c : Nat) : pyToLower (pyToUpper c) = pyToLower c := by
  simp only [pyToLower, pyToUpper]
  split_ifs <;> omega

theorem isPySpace_pyToUpper (c : Nat) : isPySpace (pyToUpper c) = isPySpace c := by
  simp only [isPySpace, pyToUpper, decide_eq_decide]
  split_ifs <;> omega

theorem dropWhile_map_pyToUpper (s : PyStr) :
    (s.map pyToUpper).dropWhile isPySpace = (s.dropWhile isPySpace).map pyToUpper := by
  induction s with
  | nil => rfl
  | cons a t ih =>
      simp only [List.map_cons, List.dropWhile_cons, isPySpace_pyToUpper]
      split <;> simp [ih]

theorem stripLeft_pyUpper (s : PyStr) : stripLeft (pyUpper s) = pyUpper (stripLeft s) := by
  simp [stripLeft, pyUpper, dropWhile_map_pyToUpper]

theorem stripRight_pyUpper (s : PyStr) : stripRight (pyUpper s) = pyUpper (stripRight s) := by
  simp only [stripRight, pyUpper, ← List.map_reverse, dropWhile_map_pyToUpper]

theorem pyStrip_pyUpper (s : PyStr) : pyStrip (pyUpper s) = pyUpper (pyStrip s) := by
  simp [pyStrip, stripLeft_pyUpper, stripRight_pyUpper]

theorem pyLower_pyUpper (s : PyStr) : pyLower (pyUpper s) = pyLower s := by
  simp only [pyLower, pyUpper, List.map_map]
  exact List.map_congr_left fun a _ => pyToLower_pyToUpper a

/-- Dropping leading whitespace ignores an all-whitespace block in front. -/
theorem dropWhile_space_append (a s : PyStr) (ha : ∀ c ∈ a, isPySpace c = true) :
    (a ++ s).dropWhile isPySpace = s.dropWhile isPySpace := by
  induction a with
  | nil => rfl
  | cons c t ih =>
      have hc : isPySpace c = true := ha c (List.mem_cons_self c t)
      simp only [List.cons_append, List.dropWhile_cons, hc, if_true]
      exact ih fun x hx => ha x (List.mem_cons_of_mem c hx)

theorem stripRight_append_space (s b : PyStr) (hb : ∀ c ∈ b, isPySpace c = true) :
    stripRight (s ++ b) = stripRight s := by
  simp only [stripRight, List.reverse_append]
  rw [dropWhile_space_append b.reverse s.reverse fun c hc => hb c (List.mem_reverse.mp hc)]

theorem stripLeft_append_space (s b : PyStr) (hb : ∀ c ∈ b, isPySpace c = true) :
    stripRight (stripLeft (s ++ b)) = stripRight (stripLeft s) := by
  simp only [stripLeft, List.dropWhile_append]
  split
  · next h =>
      have : (b.dropWhile isPySpace) = [] := by
        rw [List.dropWhile_eq_nil_iff]
        intro x hx
        simp [hb x hx]
      rw [this]
      simp only [List.isEmpty_iff] at h
      rw [h]
  · exact stripRight_append_space _ b hb

theorem pyStrip_pad (s : PyStr) :
    pyStrip ([32, 32] ++ s ++ [32, 32]) = pyStrip s := by
  have hsp : ∀ c ∈ ([32, 32] : PyStr), isPySpace c = true := by decide
  simp only [pyStrip, List.append_assoc]
  rw [show stripLeft ([32, 32] ++ (s ++ [32, 32])) = stripLeft (s ++ [32, 32]) from
    dropWhile_space_append [32, 32] _ hsp]
  exact stripLeft_append_space s [32, 32] hsp

/-- The count accumulated by `auto_score`'s loop is the start value plus
the number of ids passing `checkOne`. -/
theorem foldl_scoreStep_fst (store : ProblemStore) (ua : PyStr → Option PyVal)
    (ids : List PyStr) (acc : Nat × (PyStr → Option Bool)) :
    (ids.foldl (scoreStep store ua) acc).1 = acc.1 + ids.countP (checkOne store ua) := by
  induction ids generalizing acc with
  | nil => simp
  | cons a t ih =>
      rw [List.foldl_cons, ih, List.countP_cons]
      simp only [scoreStep]
      by_cases h : checkOne store ua a = true <;> simp [h] <;> omega

/-- The results dict built by `auto_score`'s loop maps each listed id to
its `checkOne` verdict and leaves other keys at the start map. -/
theorem foldl_scoreStep_snd (store : ProblemStore) (ua : PyStr → Option PyVal)
    (ids : List PyStr) (acc : Nat × (PyStr → Option Bool)) (q : PyStr) :
    (ids.foldl (scoreStep store ua) acc).2 q
      = if q ∈ ids then some (checkOne store ua q) else acc.2 q := by
  induction ids generalizing acc with
  | nil => simp
  | cons a t ih =>
      rw [List.foldl_cons, ih]
      by_cases ht : q ∈ t
      · simp [ht]
      · by_cases ha : q = a
        · subst ha
          simp [ht, scoreStep]
        · simp [ht, ha, scoreStep]

theorem auto_score_pct (store : ProblemStore) (ids : List PyStr) (ua : PyStr → Option PyVal) :
    (auto_score store ids ua).1
      = 100 * (ids.countP (checkOne store ua) : ℚ) / (max 1 ids.length : ℚ) := by
  simp [auto_score, foldl_scoreStep_fst]

theorem auto_score_map (store : ProblemStore) (ids : List PyStr) (ua : PyStr → Option PyVal)
    (q : PyStr) :
    (auto_score store ids ua).2 q = if q ∈ ids then some (checkOne store ua q) else none := by
  simp [auto_score, foldl_scoreStep_snd]

/-- Splitting a list of ids into those that resolve in the store and those
that do not preserves the total count. -/
theorem length_filter_isSome_add (store : ProblemStore) (l : List PyStr) :
    (l.filter fun pid => (get_problem store pid).isSome).length
      + (l.filter fun pid => (get_problem store pid).isNone).length = l.length := by
  induction l with
  | nil => rfl
  | cons a t ih =>
      cases h : get_problem store a <;> simp [List.filter_cons, h] <;> omega

/-- C2: the attempt policy permits training at any count with unlimited
remaining, test1 iff fewer than 1 prior attempt with `max(0, 1 − n)`
remaining, and test2 iff fewer than 2 with `max(0, 2 − n)` remaining;
in particular `may_attempt test1 0 = true`, `may_attempt test1 1 = false`,
`remaining test2 1 = 1` and `remaining test2 2 = 0`. -/
theorem attempt_policy_spec (n : Nat) :
    may_attempt .training n = true ∧ attempts_remaining .training n = none ∧
    may_attempt .test1 n = decide (n < 1) ∧
    attempts_remaining .test1 n = some (max 0 (1 - n)) ∧
    may_attempt .test2 n = decide (n < 2) ∧
    attempts_remaining .test2 n = some (max 0 (2 - n)) ∧
    may_attempt .test1 0 = true ∧ may_attempt .test1 1 = false ∧
    attempts_remaining .test2 1 = some 1 ∧ attempts_remaining .test2 2 = some 0 := by
  refine ⟨rfl, rfl, ?_, rfl, ?_, rfl, by decide, by decide, by decide, by decide⟩
  · simp only [may_attempt]
    split_ifs with h1 h2 <;> simp_all <;> omega
  · simp only [may_attempt]
    split_ifs with h1 h2 <;> simp_all <;> omega

/-- C5: on an empty problem list the scorer returns percentage 0 with the
empty per-problem map; the `max(1, …)` divisor prevents a division fault. -/
theorem auto_score_empty (store : ProblemStore) (ua : PyStr → Option PyVal) :
    (auto_score store [] ua).1 = 0 ∧ ∀ q, (auto_score store [] ua).2 q = none := by
  constructor
  · simp [auto_score]
  · intro q
    simp [auto_score]

/-- C6: the normalizer is invariant under upper-casing and under
whitespace padding, and maps `None`/absent input to the empty string. -/
theorem normalize_scalar_spec (s : PyStr) :
    normalize_scalar (some (pyUpper s)) = normalize_scalar (some s) ∧
    normalize_scalar (some ([32, 32] ++ s ++ [32, 32])) = normalize_scalar (some s) ∧
    normalize_scalar none = [] := by
  refine ⟨?_, ?_, rfl⟩
  · simp [normalize_scalar, pyStrip_pyUpper, pyLower_pyUpper]
  · simp only [normalize_scalar, Option.getD_some]
    rw [pyStrip_pad]

/-- C8: the scorer is order-independent: permuting the id list (duplicates
included) leaves both the percentage and the per-problem map unchanged. -/
theorem auto_score_perm (store : ProblemStore) (ua : PyStr → Option PyVal)
    (ids ids' : List PyStr) (h : ids.Perm ids') :
    (auto_score store ids ua).1 = (auto_score store ids' ua).1 ∧
    ∀ q, (auto_score store ids ua).2 q = (auto_score store ids' ua).2 q := by
  constructor
  · rw [auto_score_pct, auto_score_pct, h.countP_eq, h.length_eq]
  · intro q
    rw [auto_score_map, auto_score_map]
    simp [h.mem_iff]

/-- C8 witness: a concrete transposition of a two-id paper scores the same. -/
theorem auto_score_perm_witness :
    (auto_score exStore [pidA, pidB] exAns).1 = (auto_score exStore [pidB, pidA] exAns).1 ∧
    ∀ q, (auto_score exStore [pidA, pidB] exAns).2 q
      = (auto_score exStore [pidB, pidA] exAns).2 q :=
  auto_score_perm exStore exAns [pidA, pidB] [pidB, pidA] (by decide)

theorem checkRow_eq_true (u k : List PyStr) :
    checkRow u k = true ↔ u.length = k.length ∧
      ∀ c ∈ u.zip k, normalize_scalar (some c.1) = normalize_scalar (some c.2) := by
  simp only [checkRow]
  split_ifs with h
  · simp [List.all_eq_true, h]
  · simp [h]

theorem checkRows_eq_true (u k : List (List PyStr)) :
    checkRows u k = true ↔ ∀ p ∈ u.zip k, checkRow p.1 p.2 = true := by
  induction u generalizing k with
  | nil => simp [checkRows]
  | cons a t ih =>
      cases k with
      | nil => simp [checkRows]
      | cons b s =>
          simp only [checkRows, Bool.and_eq_true, ih, List.zip_cons_cons, List.mem_cons]
          constructor
          · rintro ⟨h1, h2⟩ p (rfl | hp)
            · exact h1
            · exact h2 p hp
          · intro h
            exact ⟨h _ (Or.inl rfl), fun p hp => h p (Or.inr hp)⟩

/-- C7: a table answer is correct exactly when the row count matches, every
row's column count matches, and every cell matches the key's cell under the
normalizer; any dimension mismatch therefore yields incorrect. -/
theorem check_table_spec (u k : List (List PyStr)) :
    check_table u k = true ↔ u.length = k.length ∧
      ∀ p ∈ u.zip k, p.1.length = p.2.length ∧
        ∀ c ∈ p.1.zip p.2, normalize_scalar (some c.1) = normalize_scalar (some c.2) := by
  simp only [check_table]
  split_ifs with h
  · rw [checkRows_eq_true]
    simp only [checkRow_eq_true, h, true_and]
  · simp [h]

/-- C7 witness: the spec's grids, case-insensitively equal, check correct. -/
theorem check_table_spec_witness :
    check_table [[[97], [98]], [[99], [100]]] [[[65], [66]], [[67], [68]]] = true :=
  (check_table_spec [[[97], [98]], [[99], [100]]] [[[65], [66]], [[67], [68]]]).mpr (by decide)

/-- C4: the disclosure shape is decided by mode and attempt number alone:
test2 at attempt 1 is the bare wrong-id list with no answer values; test2
at attempt 2 or later reveals correctness and answer values; training
reveals correctness but never answer values, at every attempt number. -/
theorem feedback_disclosure_spec (probs : List (PyStr × Problem)) (per : PyStr → Option Bool)
    (n : Nat) :
    feedback_view .test2 1 probs per
      = .wrongList ((probs.filter fun q => !(per q.1).getD false).map (·.1)) ∧
    revealsAnswers (feedback_view .test2 1 probs per) = false ∧
    (2 ≤ n → revealsAnswers (feedback_view .test2 n probs per) = true ∧
      revealsCorrectness (feedback_view .test2 n probs per) = true) ∧
    revealsCorrectness (feedback_view .training n probs per) = true ∧
    revealsAnswers (feedback_view .training n probs per) = false := by
  refine ⟨rfl, rfl, ?_, rfl, rfl⟩
  intro hn
  have h1 : n ≠ 1 := by omega
  simp [feedback_view, h1, revealsAnswers, revealsCorrectness]

/-- C4 witness: at the second test2 attempt the payload carries answers. -/
theorem feedback_disclosure_witness :
    2 ≤ 2 ∧ revealsAnswers (feedback_view .test2 2 [] fun _ => none) = true :=
  ⟨by decide, ((feedback_disclosure_spec [] (fun _ => none) 2).2.2.1 (by decide)).1⟩

/-- C3: when the attempt policy blocks the pair's next attempt, submit
fails with `AttemptLimitExceeded` and returns the submissions table
unchanged — nothing is scored and no row is written. -/
theorem submit_attempt_limit (papers : PaperStore) (store : ProblemStore)
    (paper_id pupil_id : Nat) (ua : PyStr → Option PyVal) (subs : List Submission)
    (paper : Paper) (hp : get_paper papers paper_id = some paper)
    (hm : may_attempt paper.mode (get_attempt_count subs paper_id pupil_id) = false) :
    submit papers store paper_id pupil_id ua subs = (.error .AttemptLimitExceeded, subs) := by
  simp only [submit, hp]
  split_ifs with g1 g2
  · rfl
  · rfl
  · exfalso
    simp [may_attempt, g1, g2] at hm

/-- C3 witness: a second test1 attempt is rejected and writes nothing. -/
theorem submit_attempt_limit_witness :
    submit exPapers exStore 1 2 (fun _ => none) [exPrior]
      = (.error .AttemptLimitExceeded, [exPrior]) :=
  submit_attempt_limit exPapers exStore 1 2 (fun _ => none) [exPrior] exPaper rfl rfl

/-- Appending one row numbered count-plus-one preserves the attempt-number
invariant for every pair. -/
theorem wellNumbered_append (subs : List Submission) (row : Submission)
    (hW : WellNumbered subs)
    (hrow : row.attempt_no = get_attempt_count subs row.paper_id row.pupil_id + 1) :
    WellNumbered (subs ++ [row]) := by
  intro pa pu
  by_cases hpa : row.paper_id = pa ∧ row.pupil_id = pu
  · obtain ⟨e1, e2⟩ := hpa
    have hfilter : List.filter (fun s => decide (s.paper_id = pa ∧ s.pupil_id = pu)) [row]
        = [row] := by
      simp [List.filter_cons, e1, e2]
    have hmap := hW pa pu
    simp only [get_attempt_count] at hmap ⊢
    rw [List.filter_append, hfilter, List.map_append, List.map_cons, List.map_nil,
      List.length_append, List.length_cons, List.length_nil, hmap]
    rw [hrow, e1, e2]
    simp only [get_attempt_count]
    rw [Nat.zero_add, List.range'_concat]
    congr 1
    simp only [List.cons.injEq, and_true]
    omega
  · have hfilter : List.filter (fun s => decide (s.paper_id = pa ∧ s.pupil_id = pu)) [row]
        = [] := by
      simp only [List.filter_cons, List.filter_nil]
      rw [if_neg (by simpa using hpa)]
    have hmap := hW pa pu
    simp only [get_attempt_count] at hmap ⊢
    rw [List.filter_append, hfilter]
    simpa using hmap

/-- C9: a permitted submit appends exactly one row whose attempt number is
the pair's prior-submission count plus one, computed at write time, and
this keeps every pair's attempt numbers exactly 1, 2, …, count with no
gaps. -/
theorem submit_attempt_no_spec (papers : PaperStore) (store : ProblemStore)
    (paper_id pupil_id : Nat) (ua : PyStr → Option PyVal) (subs : List Submission)
    (paper : Paper) (hW : WellNumbered subs)
    (hp : get_paper papers paper_id = some paper)
    (hm : may_attempt paper.mode (get_attempt_count subs paper_id pupil_id) = true) :
    (submit papers store paper_id pupil_id ua subs).2
      = subs ++ [⟨paper_id, pupil_id, ua,
          (auto_score store (paper.problem_ids.filter fun pid => (get_problem store pid).isSome)
            ua).1,
          get_attempt_count subs paper_id pupil_id + 1⟩]
    ∧ WellNumbered (submit papers store paper_id pupil_id ua subs).2 := by
  simp only [may_attempt] at hm
  split_ifs at hm with g1 g2
  have h2 : (submit papers store paper_id pupil_id ua subs).2
      = subs ++ [⟨paper_id, pupil_id, ua,
          (auto_score store (paper.problem_ids.filter fun pid => (get_problem store pid).isSome)
            ua).1,
          get_attempt_count subs paper_id pupil_id + 1⟩] := by
    simp only [submit, hp]
    rw [if_neg g1, if_neg g2]
    rfl
  refine ⟨h2, ?_⟩
  rw [h2]
  exact wellNumbered_append subs _ hW rfl

/-- C9 witness: the first submission of a training paper lands as attempt 1
and the table stays gap-free. -/
theorem submit_attempt_no_spec_witness :
    (submit exPapersTraining exStore 1 2 exAns []).2
      = [] ++ [⟨1, 2, exAns,
          (auto_score exStore
            (exPaperTraining.problem_ids.filter fun pid => (get_problem exStore pid).isSome)
            exAns).1,
          get_attempt_count [] 1 2 + 1⟩]
    ∧ WellNumbered (submit exPapersTraining exStore 1 2 exAns []).2 :=
  submit_attempt_no_spec exPapersTraining exStore 1 2 exAns [] exPaperTraining
    (by intro pa pu; rfl) rfl rfl

/-- C10: a single-type problem whose stored key normalizes to the empty
string is scored correct for a pupil who omitted the answer or submitted
only whitespace — absence compares as the empty scalar. -/
theorem blank_key_scores_correct (store : ProblemStore) (ua : PyStr → Option PyVal)
    (pid : PyStr) (prob : Problem) (ids : List PyStr)
    (hs : get_problem store pid = some prob)
    (ht : prob.answer_type = .single)
    (hk : normalize_scalar (some (pyStrVal prob.answer)) = [])
    (ha : ua pid = none ∨ ∃ w, ua pid = some (.str w) ∧ normalize_scalar (some w) = [])
    (hin : pid ∈ ids) :
    checkOne store ua pid = true ∧ (auto_score store ids ua).2 pid = some true := by
  have hone : checkOne store ua pid = true := by
    simp only [checkOne, hs, ht]
    simp only [check_single]
    rw [hk]
    rcases ha with h | ⟨w, hw, hwn⟩
    · simp only [h, Option.getD_none]
      decide
    · simp only [hw, Option.getD_some]
      show decide (normalize_scalar (some w) = []) = true
      rw [hwn]
      decide
  refine ⟨hone, ?_⟩
  rw [auto_score_map]
  simp [hin, hone]

/-- C10 witness: an omitted answer against the whitespace-only key "  "
is marked correct. -/
theorem blank_key_scores_correct_witness :
    checkOne exStoreBlank (fun _ => none) pidA = true ∧
    (auto_score exStoreBlank [pidA] (fun _ => none)).2 pidA = some true :=
  blank_key_scores_correct exStoreBlank (fun _ => none) pidA probBlank [pidA]
    rfl rfl rfl (Or.inl rfl) (by decide)

/-- C1 counterexample: paper 1 references two ids of which "B" is missing;
the one present problem is answered correctly, and submit reports 100%,
not the 50% that dividing by the full reference count would give. -/
theorem submit_denominator_cex :
    submitPct (submit exPapers exStore 1 2 exAns []).1 = some 100 ∧
    submitPct (submit exPapers exStore 1 2 exAns []).1 ≠ some 50 := by
  have e1 : submitPct (submit exPapers exStore 1 2 exAns []).1
      = some (auto_score exStore [pidA] exAns).1 := rfl
  have e2 : (auto_score exStore [pidA] exAns).1 = 100 := by
    rw [auto_score_pct]
    have hc : List.countP (checkOne exStore exAns) [pidA] = 1 := by decide
    rw [hc]
    norm_num
  rw [e1, e2]
  refine ⟨rfl, ?_⟩
  intro h
  have := Option.some_injective _ h
  norm_num at this

/-- C1 (amended): submit does not abort on missing referenced problems;
they are reported as missing, and the score divides by the number of
resolved ids (N − M of the N referenced, guarded by `max(1, …)`), not by
N. -/
theorem submit_missing_excluded (papers : PaperStore) (store : ProblemStore)
    (paper_id pupil_id : Nat) (ua : PyStr → Option PyVal) (subs : List Submission)
    (paper : Paper) (hp : get_paper papers paper_id = some paper)
    (hm : may_attempt paper.mode (get_attempt_count subs paper_id pupil_id) = true) :
    submitPct (submit papers store paper_id pupil_id ua subs).1
      = some (100 * ((paper.problem_ids.filter fun pid =>
            (get_problem store pid).isSome).countP (checkOne store ua) : ℚ)
          / (max 1 (paper.problem_ids.filter fun pid =>
            (get_problem store pid).isSome).length : ℚ)) ∧
    (paper.problem_ids.filter fun pid => (get_problem store pid).isSome).length
      + (paper.problem_ids.filter fun pid => (get_problem store pid).isNone).length
      = paper.problem_ids.length := by
  refine ⟨?_, length_filter_isSome_add store _⟩
  simp only [may_attempt] at hm
  split_ifs at hm with g1 g2
  simp only [submit, hp]
  rw [if_neg g1, if_neg g2]
  simp [submitPct, auto_score_pct]

/-- C1 (amended) witness: with "B" missing from a two-id paper and "A"
answered correctly, submit succeeds and divides by the one resolved id. -/
theorem submit_missing_excluded_witness :
    submitPct (submit exPapers exStore 1 2 exAns []).1
      = some (100 * ((exPaper.problem_ids.filter fun pid =>
            (get_problem exStore pid).isSome).countP (checkOne exStore exAns) : ℚ)
          / (max 1 (exPaper.problem_ids.filter fun pid =>
            (get_problem exStore pid).isSome).length : ℚ)) ∧
    (exPaper.problem_ids.filter fun pid => (get_problem exStore pid).isSome).length
      + (exPaper.problem_ids.filter fun pid => (get_problem exStore pid).isNone).length
      = exPaper.problem_ids.length :=
  submit_missing_excluded exPapers exStore 1 2 exAns [] exPaper rfl rfl

end Trafer
